import Mathlib

/-!
Verification of the `javavm` crate (`src/lib.rs`): a process-wide registry for
a `JavaVM` handle, a provider of per-thread `JNIEnv` execution contexts, and a
thread-local cache of resolved `JClass` references.

The embedding makes the crate's state explicit: the `static mut VM` global and
the `thread_local! CACHED_CLASSES` maps become fields of `VMState`, every
operation takes the state and the calling thread as arguments, and a panic
(`unwrap` on `None` / `Err`) is the `fatal` outcome of `PRes`.  The external
`jni` collaborator (`attach_current_thread_as_daemon`, `find_class`) is a
parameter, so theorems quantify over every collaborator behaviour.
`load_class_cached` additionally reports how many times it invoked the
collaborator's `find_class`, which makes "no runtime resolution happened"
claims statable.
-/

namespace Javavm

/-- Opaque handle to the managed runtime instance (`jni::JavaVM`). -/
abbrev JavaVM := Nat

/-- Opaque thread-bound execution context (`jni::JNIEnv`). -/
abbrev JNIEnv := Nat

/-- Opaque resolved class reference (`jni::objects::JClass`). -/
abbrev JClass := Nat

/-- Identifier of a native thread; the thread-local cache is indexed by it. -/
abbrev ThreadId := Nat

/-- Behaviour of the external `jni` collaborator: attaching the calling thread
to a given virtual machine as a daemon, and resolving a class name through an
environment handle.  Both are fallible, mirroring the `jni::errors::Result`
return types. -/
structure Collab where
  attach_current_thread_as_daemon : JavaVM → ThreadId → Except Unit JNIEnv
  find_class : JNIEnv → String → Except Unit JClass

/-- Program state of the crate: the `static mut VM : Option<JavaVM>` global
and, for every thread, that thread's `thread_local!` map
`CACHED_CLASSES : HashMap<String, JClass>` (modelled as an association list
with map semantics). -/
structure VMState where
  VM : Option JavaVM
  CACHED_CLASSES : ThreadId → List (String × JClass)

/-- State at program start: `static mut VM: Option<JavaVM> = None;` and every
thread's lazily created cache is the empty map `HashMap::new()`. -/
def startState : VMState := ⟨none, fun _ => []⟩

/-- Outcome of an operation that may panic: `fatal` models a Rust panic
(an `unwrap` failure aborting the thread), `ok` a normal return. -/
inductive PRes (α : Type) where
  | fatal
  | ok (val : α)

/-- Map lookup on the association list modelling `HashMap::get`. -/
def get_assoc : List (String × JClass) → String → Option JClass
  | [], _ => none
  | (k, v) :: rest, name => if k = name then some v else get_assoc rest name

/-- Map removal modelling `HashMap::remove`: drops every binding of `name`. -/
def removeAssoc : List (String × JClass) → String → List (String × JClass)
  | [], _ => []
  | (k, v) :: rest, name =>
    if k = name then removeAssoc rest name else (k, v) :: removeAssoc rest name

/-- Map insertion modelling `HashMap::insert`: binds `name` to `cls`,
replacing any previous binding. -/
def insertAssoc (l : List (String × JClass)) (name : String) (cls : JClass) :
    List (String × JClass) :=
  (name, cls) :: removeAssoc l name

/-- `pub fn set_jvm(vm: Option<JavaVM>)`: overwrites the `VM` global. -/
def set_jvm (s : VMState) (vm : Option JavaVM) : VMState :=
  { s with VM := vm }

/-- `pub fn jvm() -> Option<&'static JavaVM>`: returns `Some` of the stored
handle when the global is set, `None` otherwise. -/
def jvm (s : VMState) : Option JavaVM :=
  match s.VM with
  | some v => some v
  | none => none

/-- `pub fn get_env() -> JNIEnv<'static>`: `VM.as_ref().unwrap()` panics when
the global is `None`; `attach_current_thread_as_daemon().unwrap()` panics when
the collaborator reports an error. -/
def get_env (c : Collab) (s : VMState) (t : ThreadId) : PRes JNIEnv :=
  match s.VM with
  | none => .fatal
  | some v =>
    match c.attach_current_thread_as_daemon v t with
    | .error _ => .fatal
    | .ok env => .ok env

/-- `pub fn get_env_safe() -> Option<JNIEnv<'static>>`: returns `None` both
when the global is unset (`?` on `VM.as_ref()`) and when attachment errors. -/
def get_env_safe (c : Collab) (s : VMState) (t : ThreadId) : Option JNIEnv :=
  match s.VM with
  | none => none
  | some v =>
    match c.attach_current_thread_as_daemon v t with
    | .ok env => some env
    | .error _ => none

/-- The `get_class` closure inside `load_class_cached`: looks `name` up in the
calling thread's `CACHED_CLASSES` map. -/
def get_class (s : VMState) (t : ThreadId) (name : String) : Option JClass :=
  get_assoc (s.CACHED_CLASSES t) name

/-- Result of `load_class_cached`: the returned `Option<JClass>`, the state
after the call, and how many times the collaborator's `find_class` was
invoked during the call (0 on a cache hit, 1 after a miss). -/
structure LoadOut where
  result : Option JClass
  state : VMState
  findCalls : Nat

/-- `pub fn load_class_cached(name: &str) -> Option<JClass<'static>>`:
returns the cached entry when present; otherwise obtains an environment via
the panicking `get_env()`, asks the collaborator's `find_class`, inserts the
class into the calling thread's map on success, and finishes with a second
`get_class()` on the (possibly updated) cache. -/
def load_class_cached (c : Collab) (s : VMState) (t : ThreadId) (name : String) :
    PRes LoadOut :=
  match get_class s t name with
  | some cls => .ok ⟨some cls, s, 0⟩
  | none =>
    match get_env c s t with
    | .fatal => .fatal
    | .ok env =>
      match c.find_class env name with
      | .ok cls =>
        let s' : VMState :=
          { s with CACHED_CLASSES := fun u =>
              if u = t then insertAssoc (s.CACHED_CLASSES t) name cls
              else s.CACHED_CLASSES u }
        .ok ⟨get_class s' t name, s', 1⟩
      | .error _ => .ok ⟨get_class s t name, s, 1⟩

/-- `pub fn unload_cached_class(name: &str)`: removes `name` from the calling
thread's map; other threads' maps and the `VM` global are untouched. -/
def unload_cached_class (s : VMState) (t : ThreadId) (name : String) : VMState :=
  { s with CACHED_CLASSES := fun u =>
      if u = t then removeAssoc (s.CACHED_CLASSES t) name
      else s.CACHED_CLASSES u }

/-! Concrete collaborators and states used by the witness theorems. -/

/-- Collaborator whose attachment and class resolution always succeed. -/
def collab0 : Collab := ⟨fun _ _ => .ok 7, fun _ _ => .ok 42⟩

/-- Collaborator whose attachment always fails. -/
def collabAttachErr : Collab := ⟨fun _ _ => .error (), fun _ _ => .ok 42⟩

/-- Collaborator that attaches fine but never resolves any class. -/
def collabFindErr : Collab := ⟨fun _ _ => .ok 7, fun _ _ => .error ()⟩

/-- State with a registered runtime and all caches empty. -/
def s0 : VMState := ⟨some 1, fun _ => []⟩

/-- State `s0` after thread 0 successfully cached `"pkg.Foo"`. -/
def s0ins : VMState :=
  { s0 with CACHED_CLASSES := fun u =>
      if u = 0 then insertAssoc (s0.CACHED_CLASSES 0) "pkg.Foo" 42
      else s0.CACHED_CLASSES u }

/-- State with no registered runtime but `"pkg.Foo"` cached on thread 0. -/
def sNoVMCached : VMState := ⟨none, fun u => if u = 0 then [("pkg.Foo", 42)] else []⟩

/-! Association-list lemmas. -/

/-- Looking up a key right after inserting it yields the inserted value. -/
theorem get_assoc_insertAssoc (l : List (String × JClass)) (name : String) (cls : JClass) :
    get_assoc (insertAssoc l name cls) name = some cls := by
  simp [insertAssoc, get_assoc]

/-- Looking up a key right after removing it yields nothing. -/
theorem get_assoc_removeAssoc (l : List (String × JClass)) (name : String) :
    get_assoc (removeAssoc l name) name = none := by
  induction l with
  | nil => rfl
  | cons p rest ih =>
    obtain ⟨k, v⟩ := p
    by_cases h : k = name
    · simpa [removeAssoc, h] using ih
    · simpa [removeAssoc, get_assoc, h] using ih

/-- Removing one key leaves the binding of every other key unchanged. -/
theorem get_assoc_removeAssoc_ne (l : List (String × JClass)) (name k2 : String)
    (h : k2 ≠ name) :
    get_assoc (removeAssoc l name) k2 = get_assoc l k2 := by
  induction l with
  | nil => rfl
  | cons p rest ih =>
    obtain ⟨k, v⟩ := p
    by_cases hk : k = name
    · subst hk
      simp [removeAssoc, get_assoc, Ne.symm h, ih]
    · by_cases hk2 : k = k2 <;> simp [removeAssoc, get_assoc, hk, hk2, h, ih]

/-- Removing an absent key is the identity on the map. -/
theorem removeAssoc_of_get_assoc_none (l : List (String × JClass)) (name : String)
    (h : get_assoc l name = none) :
    removeAssoc l name = l := by
  induction l with
  | nil => rfl
  | cons p rest ih =>
    obtain ⟨k, v⟩ := p
    by_cases hk : k = name
    · simp [get_assoc, hk] at h
    · simp [get_assoc, hk] at h
      simp [removeAssoc, hk, ih h]

/-! Helper lemmas about `load_class_cached` and `unload_cached_class`. -/

/-- On a cache hit, `load_class_cached` returns the cached class, leaves the
state untouched and never calls `find_class`. -/
theorem load_of_hit (c : Collab) (s : VMState) (t : ThreadId) (name : String)
    (cls : JClass) (h : get_class s t name = some cls) :
    load_class_cached c s t name = .ok ⟨some cls, s, 0⟩ := by
  unfold load_class_cached
  rw [h]

/-- Whenever `load_class_cached` returns a class, that class is cached for the
calling thread in the post-state. -/
theorem cached_of_load_ok (c : Collab) (s : VMState) (t : ThreadId) (name : String)
    (cls : JClass) (s' : VMState) (k : Nat)
    (h : load_class_cached c s t name = .ok ⟨some cls, s', k⟩) :
    get_class s' t name = some cls := by
  unfold load_class_cached at h
  cases hm : get_class s t name with
  | some a =>
    simp only [hm, PRes.ok.injEq, LoadOut.mk.injEq, Option.some.injEq] at h
    obtain ⟨h1, h2, _⟩ := h
    subst h2
    rw [hm, h1]
  | none =>
    simp only [hm] at h
    cases he : get_env c s t with
    | fatal =>
      simp only [he] at h
      exact PRes.noConfusion h
    | ok env =>
      simp only [he] at h
      cases hf : c.find_class env name with
      | error e =>
        simp only [hf, hm, PRes.ok.injEq, LoadOut.mk.injEq] at h
        exact absurd h.1 (by simp)
      | ok cls0 =>
        simp only [hf, PRes.ok.injEq, LoadOut.mk.injEq] at h
        obtain ⟨h1, h2, _⟩ := h
        rw [← h2]
        exact h1

/-- A returning `load_class_cached` call never touches the `VM` global nor any
other thread's cache. -/
theorem load_preserves_other (c : Collab) (s : VMState) (t : ThreadId) (name : String)
    (r : Option JClass) (s' : VMState) (k : Nat)
    (h : load_class_cached c s t name = .ok ⟨r, s', k⟩) :
    s'.VM = s.VM ∧ ∀ u, u ≠ t → s'.CACHED_CLASSES u = s.CACHED_CLASSES u := by
  unfold load_class_cached at h
  cases hm : get_class s t name with
  | some a =>
    simp only [hm, PRes.ok.injEq, LoadOut.mk.injEq] at h
    rw [← h.2.1]
    exact ⟨rfl, fun _ _ => rfl⟩
  | none =>
    simp only [hm] at h
    cases he : get_env c s t with
    | fatal =>
      simp only [he] at h
      exact PRes.noConfusion h
    | ok env =>
      simp only [he] at h
      cases hf : c.find_class env name with
      | error e =>
        simp only [hf, PRes.ok.injEq, LoadOut.mk.injEq] at h
        rw [← h.2.1]
        exact ⟨rfl, fun _ _ => rfl⟩
      | ok cls0 =>
        simp only [hf, PRes.ok.injEq, LoadOut.mk.injEq] at h
        rw [← h.2.1]
        exact ⟨rfl, fun u hu => by simp [hu]⟩

/-- After `unload_cached_class`, the evicted name is absent from the calling
thread's cache. -/
theorem get_class_unload_self (s : VMState) (t : ThreadId) (name : String) :
    get_class (unload_cached_class s t name) t name = none := by
  simp [get_class, unload_cached_class, get_assoc_removeAssoc]

/-- On a cache miss with a registered VM, successful attachment and successful
resolution, `load_class_cached` returns the freshly resolved class, inserts it
into the calling thread's cache, and calls `find_class` exactly once. -/
theorem load_miss_find_ok (c : Collab) (s : VMState) (t : ThreadId) (name : String)
    (v : JavaVM) (env : JNIEnv) (cls : JClass)
    (hmiss : get_class s t name = none)
    (hvm : s.VM = some v)
    (hat : c.attach_current_thread_as_daemon v t = .ok env)
    (hfc : c.find_class env name = .ok cls) :
    load_class_cached c s t name =
      .ok ⟨some cls,
        { s with CACHED_CLASSES := fun u =>
            if u = t then insertAssoc (s.CACHED_CLASSES t) name cls
            else s.CACHED_CLASSES u }, 1⟩ := by
  simp only [load_class_cached, hmiss, get_env, hvm, hat, hfc]
  simp [get_class, get_assoc_insertAssoc]

/-! Claim theorems. -/

/-- C1: after a `load_class_cached name` call that resolved and cached `name`
on a thread, every later `load_class_cached name` on that thread returns the
identical cached class, leaves the state unchanged, and performs zero
`find_class` invocations — no call into the runtime collaborator (which is why
the later call's collaborator `c'` is universally quantified and unused). -/
theorem C1_cache_hit_idempotent (c c' : Collab) (s s' : VMState) (t : ThreadId)
    (name : String) (cls : JClass) (k : Nat)
    (h : load_class_cached c s t name = .ok ⟨some cls, s', k⟩) :
    load_class_cached c' s' t name = .ok ⟨some cls, s', 0⟩ :=
  load_of_hit c' s' t name cls (cached_of_load_ok c s t name cls s' k h)

/-- Witness for C1 at a concrete successful first load. -/
theorem C1_witness :
    load_class_cached collab0 s0ins 0 "pkg.Foo" = .ok ⟨some 42, s0ins, 0⟩ :=
  C1_cache_hit_idempotent collab0 collab0 s0 s0ins 0 "pkg.Foo" 42 1 rfl

/-- C2: `get_env` is fatal (panics) when no VM is registered, and also fatal
when a VM is registered but the collaborator's
`attach_current_thread_as_daemon` fails. -/
theorem C2_get_env_fatal (c : Collab) (s : VMState) (t : ThreadId) :
    (s.VM = none → get_env c s t = .fatal) ∧
    (∀ v e, s.VM = some v →
      c.attach_current_thread_as_daemon v t = .error e →
      get_env c s t = .fatal) := by
  constructor
  · intro h
    simp only [get_env, h]
  · intro v e hv ha
    simp only [get_env, hv, ha]

/-- Witness for C2: fatal with no VM registered, and fatal with a VM whose
attachment fails. -/
theorem C2_witness :
    get_env collabAttachErr startState 0 = .fatal ∧
    get_env collabAttachErr s0 0 = .fatal :=
  ⟨(C2_get_env_fatal collabAttachErr startState 0).1 rfl,
   (C2_get_env_fatal collabAttachErr s0 0).2 1 () rfl rfl⟩

/-- C3: `get_env_safe` never panics (it is a total function into `Option`):
it returns `none` when no VM is registered, `none` when attachment fails, and
`some env` when attachment succeeds. -/
theorem C3_get_env_safe_never_fatal (c : Collab) (s : VMState) (t : ThreadId) :
    (s.VM = none → get_env_safe c s t = none) ∧
    (∀ v e, s.VM = some v →
      c.attach_current_thread_as_daemon v t = .error e →
      get_env_safe c s t = none) ∧
    (∀ v env, s.VM = some v →
      c.attach_current_thread_as_daemon v t = .ok env →
      get_env_safe c s t = some env) := by
  refine ⟨fun h => ?_, fun v e hv ha => ?_, fun v env hv ha => ?_⟩
  · simp only [get_env_safe, h]
  · simp only [get_env_safe, hv, ha]
  · simp only [get_env_safe, hv, ha]

/-- Witness for C3 on all three concrete cases. -/
theorem C3_witness :
    get_env_safe collab0 startState 0 = none ∧
    get_env_safe collabAttachErr s0 0 = none ∧
    get_env_safe collab0 s0 0 = some 7 :=
  ⟨(C3_get_env_safe_never_fatal collab0 startState 0).1 rfl,
   (C3_get_env_safe_never_fatal collabAttachErr s0 0).2.1 1 () rfl rfl,
   (C3_get_env_safe_never_fatal collab0 s0 0).2.2 1 7 rfl rfl⟩

/-- C4: on a cache miss where attachment succeeds but the collaborator's
`find_class` fails, `load_class_cached` returns `none` and the state is
exactly the pre-state: nothing is inserted, no negative result is cached
(`findCalls = 1` records that resolution was attempted). -/
theorem C4_resolution_failure_leaves_cache (c : Collab) (s : VMState) (t : ThreadId)
    (name : String) (v : JavaVM) (env : JNIEnv) (e : Unit)
    (hmiss : get_class s t name = none)
    (hvm : s.VM = some v)
    (hat : c.attach_current_thread_as_daemon v t = .ok env)
    (hfc : c.find_class env name = .error e) :
    load_class_cached c s t name = .ok ⟨none, s, 1⟩ := by
  simp only [load_class_cached, hmiss, get_env, hvm, hat, hfc]

/-- Witness for C4 with a collaborator that never resolves classes. -/
theorem C4_witness :
    load_class_cached collabFindErr s0 0 "pkg.Foo" = .ok ⟨none, s0, 1⟩ :=
  C4_resolution_failure_leaves_cache collabFindErr s0 0 "pkg.Foo" 1 7 () rfl rfl rfl rfl

/-- C5: on a cache miss with no VM registered, `load_class_cached` is fatal
(it goes through the panicking `get_env`) instead of returning `none`. -/
theorem C5_load_fatal_when_unregistered (c : Collab) (s : VMState) (t : ThreadId)
    (name : String)
    (hmiss : get_class s t name = none)
    (hvm : s.VM = none) :
    load_class_cached c s t name = .fatal := by
  simp only [load_class_cached, hmiss, get_env, hvm]

/-- Witness for C5 at the start state. -/
theorem C5_witness : load_class_cached collab0 startState 0 "pkg.Foo" = .fatal :=
  C5_load_fatal_when_unregistered collab0 startState 0 "pkg.Foo" rfl rfl

/-- C6: for a thread that has `name` cached, evicting it with
`unload_cached_class` and then calling `load_class_cached` invokes the
collaborator's `find_class` again (`findCalls = 1`), and on success the newly
resolved class is returned and cached again. -/
theorem C6_unload_then_load_reresolves (c : Collab) (s : VMState) (t : ThreadId)
    (name : String) (cls1 : JClass) (v : JavaVM) (env : JNIEnv) (cls2 : JClass)
    (hcached : get_class s t name = some cls1)
    (hvm : s.VM = some v)
    (hat : c.attach_current_thread_as_daemon v t = .ok env)
    (hfc : c.find_class env name = .ok cls2) :
    ∃ s2, load_class_cached c (unload_cached_class s t name) t name =
        .ok ⟨some cls2, s2, 1⟩ ∧
      get_class s2 t name = some cls2 := by
  have hmiss := get_class_unload_self s t name
  have hvm' : (unload_cached_class s t name).VM = some v := hvm
  refine ⟨_, load_miss_find_ok c (unload_cached_class s t name) t name v env cls2
    hmiss hvm' hat hfc, ?_⟩
  simp [get_class, get_assoc_insertAssoc]

/-- Witness for C6: thread 0 has the class cached, evicts it, and reloading
resolves again. -/
theorem C6_witness :
    ∃ s2, load_class_cached collab0 (unload_cached_class s0ins 0 "pkg.Foo") 0 "pkg.Foo" =
        .ok ⟨some 42, s2, 1⟩ ∧
      get_class s2 0 "pkg.Foo" = some 42 :=
  C6_unload_then_load_reresolves collab0 s0ins 0 "pkg.Foo" 42 1 7 42 rfl rfl rfl rfl

/-- C7: `set_jvm (some h)` makes `jvm` return `some h`, `set_jvm none` makes
`jvm` return `none`, and in the start state (nothing ever set) `jvm` returns
`none`; `jvm` is total (no error, no panic). -/
theorem C7_registry_set_get (s : VMState) (h : JavaVM) :
    jvm (set_jvm s (some h)) = some h ∧
    jvm (set_jvm s none) = none ∧
    jvm startState = none :=
  ⟨rfl, rfl, rfl⟩

/-- C8: `unload_cached_class name` removes exactly the entry for `name` from
the calling thread's cache, leaves every other key of that cache unchanged,
is a no-op on the cache when `name` is absent, never touches another thread's
cache, and never touches the VM registry. -/
theorem C8_unload_frame (s : VMState) (t t' : ThreadId) (name k2 : String) :
    get_class (unload_cached_class s t name) t name = none ∧
    (k2 ≠ name → get_class (unload_cached_class s t name) t k2 = get_class s t k2) ∧
    (get_class s t name = none →
      (unload_cached_class s t name).CACHED_CLASSES t = s.CACHED_CLASSES t) ∧
    (t' ≠ t → (unload_cached_class s t name).CACHED_CLASSES t' = s.CACHED_CLASSES t') ∧
    (unload_cached_class s t name).VM = s.VM := by
  refine ⟨get_class_unload_self s t name, fun hk => ?_, fun hnone => ?_,
    fun ht => ?_, rfl⟩
  · simp [get_class, unload_cached_class, get_assoc_removeAssoc_ne _ name k2 hk]
  · simp [unload_cached_class, removeAssoc_of_get_assoc_none _ name hnone]
  · simp [unload_cached_class, ht]

/-- Witness for C8: eviction removes the cached name, spares another key,
is a no-op for an uncached name, and spares another thread's cache. -/
theorem C8_witness :
    get_class (unload_cached_class s0ins 0 "pkg.Foo") 0 "pkg.Foo" = none ∧
    get_class (unload_cached_class s0ins 0 "pkg.Foo") 0 "pkg.Bar" =
      get_class s0ins 0 "pkg.Bar" ∧
    (unload_cached_class s0ins 0 "pkg.Bar").CACHED_CLASSES 0 =
      s0ins.CACHED_CLASSES 0 ∧
    (unload_cached_class s0ins 0 "pkg.Foo").CACHED_CLASSES 1 =
      s0ins.CACHED_CLASSES 1 :=
  ⟨(C8_unload_frame s0ins 0 1 "pkg.Foo" "pkg.Bar").1,
   (C8_unload_frame s0ins 0 1 "pkg.Foo" "pkg.Bar").2.1 (by decide),
   (C8_unload_frame s0ins 0 1 "pkg.Bar" "x").2.2.1 rfl,
   (C8_unload_frame s0ins 0 1 "pkg.Foo" "x").2.2.2.1 (by decide)⟩

/-- C9: caches are strictly thread-scoped: a successful `load_class_cached`
on thread `tA` leaves `name` absent from a distinct thread `tB`'s cache, and
a subsequent `load_class_cached` on `tB` performs its own resolution
(`findCalls = 1`). -/
theorem C9_thread_scoped (c c' : Collab) (s s' : VMState) (tA tB : ThreadId)
    (name : String) (cls : JClass) (k : Nat) (v : JavaVM) (env : JNIEnv)
    (hne : tB ≠ tA)
    (hload : load_class_cached c s tA name = .ok ⟨some cls, s', k⟩)
    (hmissB : get_class s tB name = none)
    (hvm : s.VM = some v)
    (hat : c'.attach_current_thread_as_daemon v tB = .ok env) :
    get_class s' tB name = none ∧
    ∃ r s2, load_class_cached c' s' tB name = .ok ⟨r, s2, 1⟩ := by
  obtain ⟨hVM, hcache⟩ := load_preserves_other c s tA name (some cls) s' k hload
  have hmiss' : get_class s' tB name = none := by
    show get_assoc (s'.CACHED_CLASSES tB) name = none
    rw [hcache tB hne]
    exact hmissB
  have hvm' : s'.VM = some v := by rw [hVM]; exact hvm
  refine ⟨hmiss', ?_⟩
  cases hf : c'.find_class env name with
  | ok cls2 =>
    exact ⟨some cls2, _,
      load_miss_find_ok c' s' tB name v env cls2 hmiss' hvm' hat hf⟩
  | error e =>
    refine ⟨none, s', ?_⟩
    simp only [load_class_cached, hmiss', get_env, hvm', hat, hf]

/-- Witness for C9: thread 0 caches the class, thread 1 still misses and
resolves on its own. -/
theorem C9_witness :
    get_class s0ins 1 "pkg.Foo" = none ∧
    ∃ r s2, load_class_cached collab0 s0ins 1 "pkg.Foo" = .ok ⟨r, s2, 1⟩ :=
  C9_thread_scoped collab0 collab0 s0 s0ins 0 1 "pkg.Foo" 42 1 1 7
    (by decide) rfl rfl rfl rfl

/-- C10: when `name` is already cached for the calling thread,
`load_class_cached` returns the cached class with no `find_class` call and no
state change, for every registry content and collaborator — in particular it
does not panic even when no VM is registered. -/
theorem C10_hit_skips_registry (c : Collab) (s : VMState) (t : ThreadId)
    (name : String) (cls : JClass)
    (hhit : get_class s t name = some cls) :
    load_class_cached c s t name = .ok ⟨some cls, s, 0⟩ :=
  load_of_hit c s t name cls hhit

/-- Witness for C10: the VM registry is empty and attachment would fail, yet
the cached class is returned without a panic. -/
theorem C10_witness :
    load_class_cached collabAttachErr sNoVMCached 0 "pkg.Foo" =
      .ok ⟨some 42, sNoVMCached, 0⟩ :=
  C10_hit_skips_registry collabAttachErr sNoVMCached 0 "pkg.Foo" 42 rfl

end Javavm
